import Mathlib

/-!
Shallow embedding of the aerosim track-generation and scenario-assembly code:
- `src/examples/utils/aerosim_utils/artificial_tracks.py`
- `src/aerosim/src/aerosim/utils/scenario_generator.py`

File I/O is abstracted: a trajectory directory is a list of
(filename, parsed waypoints) pairs, and `load_ownship_trajectory` receives the
parsed content of the file for each of the two supported formats.
-/

/-! ## Scenario generator (`scenario_generator.py`) -/

/-- A waypoint of a trajectory JSON file: keys `lat`, `lon` and optional `alt`
(`first_waypoint.get('alt', 116.09)` in the source). Rational coordinates keep
the embedding decidable; no trigonometry occurs in this module. -/
structure Waypoint where
  lat : ℚ
  lon : ℚ
  alt : Option ℚ
deriving DecidableEq

/-- The `world.origin` object assembled by `generate_scenario_json`. -/
structure WorldOrigin where
  latitude : ℚ
  longitude : ℚ
  altitude : ℚ
deriving DecidableEq

/-- Python `str.lower()` (code-point-wise; the strings the claims involve are
ASCII). Implemented on the character list so the kernel can evaluate it. -/
def str_lower (s : String) : String := ⟨s.data.map Char.toLower⟩

/-- Python string `<`: lexicographic comparison of code points. -/
def charListLt : List Char → List Char → Bool
  | [], [] => false
  | [], _ :: _ => true
  | _ :: _, [] => false
  | a :: as, b :: bs => if a < b then true else if b < a then false else charListLt as bs

/-- Python string `<` on `String`. -/
def strLt (a b : String) : Bool := charListLt a.data b.data

/-- Filter of `os.listdir`: keep files ending in `_trajectory.json`. -/
def isTrajectoryFile (name : String) : Bool :=
  "_trajectory.json".data.isSuffixOf name.data

/-- Insert one directory entry into a filename-sorted list (ascending). -/
def insertByName (x : String × List Waypoint) :
    List (String × List Waypoint) → List (String × List Waypoint)
  | [] => [x]
  | y :: rest => if strLt x.1 y.1 then x :: y :: rest else y :: insertByName x rest

/-- Sort directory entries by filename, as `trajectory_files.sort()` does. -/
def sortByName : List (String × List Waypoint) → List (String × List Waypoint)
  | [] => []
  | x :: rest => insertByName x (sortByName rest)

/-- `trajectory_files`: the `_trajectory.json` entries of the directory in
lexicographic filename order. -/
def trajectory_files (dir : List (String × List Waypoint)) :
    List (String × List Waypoint) :=
  sortByName (dir.filter fun f => isTrajectoryFile f.1)

/-- The world-origin part of the `for idx, traj_file in enumerate(trajectory_files, start=1)`
loop of `generate_scenario_json`: an empty file is skipped (`continue`) but
still consumes its index; the origin is assigned only in the iteration with
`idx == 1`, from the first waypoint, with altitude fallback `116.09`. -/
def originLoop : ℕ → List (String × List Waypoint) → Option WorldOrigin
  | _, [] => none
  | idx, (_, waypoints) :: rest =>
    match waypoints with
    | [] => originLoop (idx + 1) rest
    | w :: _ =>
      if idx = 1 then
        some ⟨w.lat, w.lon, w.alt.getD (11609/100 : ℚ)⟩
      else
        originLoop (idx + 1) rest

/-- The `world.origin` value of the scenario document produced by
`generate_scenario_json` on a given trajectory directory; `none` when the
origin object is left empty (`{}`). -/
def scenario_world_origin (dir : List (String × List Waypoint)) : Option WorldOrigin :=
  originLoop 1 (trajectory_files dir)

/-! ## Maneuver selector (`ArtificialTrackGenerator._select_generator`) -/

/-- The maneuver generator classes dispatched by `_select_generator`. -/
inductive GenKind
  | random | circular | elliptical | flyby | square | rectangle | zigzag | spiral
deriving DecidableEq

/-- `_select_generator`: `__init__` lowercases `track_generator_class`; the
chain of string comparisons falls through to `RandomTrackGenerator` for any
unrecognized value. -/
def select_generator (track_generator_class : String) : GenKind :=
  let gen_class := str_lower track_generator_class
  if gen_class = "random" then .random
  else if gen_class = "circular" then .circular
  else if gen_class = "elliptical" then .elliptical
  else if gen_class = "flyby" then .flyby
  else if gen_class = "square" then .square
  else if gen_class = "rectangle" then .rectangle
  else if gen_class = "zigzag" then .zigzag
  else if gen_class = "spiral" then .spiral
  else .random

/-! ## Ownship trajectory loading (`load_ownship_trajectory`) -/

/-- `load_ownship_trajectory(file_path, file_format)`: dispatch on
`file_format.lower()`. File reading and parsing are abstracted into the two
parameters `json_data` and `csv_data`, each holding the trajectory the
respective branch would produce from the file; the claim under study concerns
only the dispatch and the error raised in the `else` branch. -/
def load_ownship_trajectory {α : Type} (json_data csv_data : α)
    (file_format : String) : Except String α :=
  if str_lower file_format = "json" then .ok json_data
  else if str_lower file_format = "csv" then .ok csv_data
  else .error "Unsupported ownship format. Use json or csv."

/-! ## Track generators (`artificial_tracks.py`), over ℝ -/

noncomputable section

/-- `math.radians`. -/
def radians (x : ℝ) : ℝ := x * (Real.pi / 180)

/-- `math.degrees`. -/
def degrees (x : ℝ) : ℝ := x * (180 / Real.pi)

/-- `math.atan2 y x` (standard piecewise definition; `atan2 0 0 = 0`). -/
def atan2 (y x : ℝ) : ℝ :=
  if 0 < x then Real.arctan (y / x)
  else if x < 0 then
    (if 0 ≤ y then Real.arctan (y / x) + Real.pi else Real.arctan (y / x) - Real.pi)
  else if 0 < y then Real.pi / 2
  else if y < 0 then -(Real.pi / 2)
  else 0

/-- Python float `%` (result carries the sign of the divisor):
`x - y * floor (x / y)`. -/
def fmod (x y : ℝ) : ℝ := x - y * ⌊x / y⌋

/-- `haversine(lon1, lat1, lon2, lat2)`: great-circle distance in meters. -/
def haversine (lon1 lat1 lon2 lat2 : ℝ) : ℝ :=
  let R : ℝ := 6371000
  let phi1 := radians lat1
  let phi2 := radians lat2
  let d_phi := radians (lat2 - lat1)
  let d_lambda := radians (lon2 - lon1)
  let a := Real.sin (d_phi / 2) ^ 2 +
    Real.cos phi1 * Real.cos phi2 * Real.sin (d_lambda / 2) ^ 2
  let c := 2 * atan2 (Real.sqrt a) (Real.sqrt (1 - a))
  R * c

/-- The numeric fields of the track-point dictionary built by
`BaseTrackGenerator._create_track_point`. The pseudo-random `Hex-ICAO`
identifier and the formatted string fields (`data`, the ISO timestamp, the
zero-padded id string) are presentation of these values and are not modelled;
`timestamp` is kept as start time plus `time_delta`, in seconds. -/
structure TrackPoint where
  trackId : ℕ
  timestamp : ℝ
  longitude : ℝ
  latitude : ℝ
  altitude : ℝ
  aglAltitude : ℝ
  mslAltitude : ℝ
  wgs84Altitude : ℝ
  distance_m : ℝ

/-- `BaseTrackGenerator._create_track_point(lon, lat, alt, time_delta)`. -/
def create_track_point (center_lat center_lon : ℝ) (track_id : ℕ)
    (start_time : ℝ) (lon lat alt time_delta : ℝ) : TrackPoint :=
  { trackId := track_id
    timestamp := start_time + time_delta
    longitude := lon
    latitude := lat
    altitude := alt
    aglAltitude := alt * 0.35
    mslAltitude := alt
    wgs84Altitude := alt - 50
    distance_m := haversine center_lon center_lat lon lat }

/-- Default track point (used only as the `getD` fallback in statements). -/
def trackPoint0 : TrackPoint := create_track_point 0 0 0 0 0 0 0 0

/-- `RandomTrackGenerator.generate`. The per-point draws of
`random.uniform(-0.01, 0.01)` for `delta_lat`/`delta_lon` and of
`BaseTrackGenerator._get_altitude()` (= `random.uniform(min_alt, max_alt)`)
are modelled as the streams `dLat`, `dLon`, `randAlt` indexed by the point. -/
def random_generate (center_lat center_lon : ℝ) (dLat dLon randAlt : ℕ → ℝ)
    (track_id : ℕ) (start_time : ℝ) (num_points : ℕ) (interval_seconds : ℝ) :
    List TrackPoint :=
  (List.range num_points).map fun (i : ℕ) =>
    create_track_point center_lat center_lon track_id start_time
      (center_lon + dLon i) (center_lat + dLat i) (randAlt i)
      ((i : ℝ) * interval_seconds)

/-- `CircularTrackGenerator.generate`. -/
def circular_generate (center_lat center_lon radius : ℝ) (randAlt : ℕ → ℝ)
    (track_id : ℕ) (start_time : ℝ) (num_points : ℕ) (interval_seconds : ℝ) :
    List TrackPoint :=
  (List.range num_points).map fun (i : ℕ) =>
    let angle := (2 * Real.pi / (num_points : ℝ)) * (i : ℝ)
    create_track_point center_lat center_lon track_id start_time
      (center_lon + radius * Real.sin angle)
      (center_lat + radius * Real.cos angle)
      (randAlt i) ((i : ℝ) * interval_seconds)

/-- `EllipticalTrackGenerator.generate`. -/
def elliptical_generate (center_lat center_lon radius_x radius_y : ℝ)
    (randAlt : ℕ → ℝ) (track_id : ℕ) (start_time : ℝ)
    (num_points : ℕ) (interval_seconds : ℝ) : List TrackPoint :=
  (List.range num_points).map fun (i : ℕ) =>
    let angle := (2 * Real.pi / (num_points : ℝ)) * (i : ℝ)
    create_track_point center_lat center_lon track_id start_time
      (center_lon + radius_x * Real.cos angle)
      (center_lat + radius_y * Real.sin angle)
      (randAlt i) ((i : ℝ) * interval_seconds)

/-- `FlybyTrackGenerator.generate`. The loop body computes
`i / (num_points - 1)` with no guard, so `num_points = 1` raises
`ZeroDivisionError` (the loop does run once); this is modelled as `.error`.
With `num_points = 0` the loop body never runs. -/
def flyby_generate (center_lat center_lon approach_distance exit_distance
    bearing_deg : ℝ) (randAlt : ℕ → ℝ) (track_id : ℕ) (start_time : ℝ)
    (num_points : ℕ) (interval_seconds : ℝ) : Except String (List TrackPoint) :=
  if num_points = 1 then .error "division by zero"
  else
    let bearing := radians bearing_deg
    let total_distance := approach_distance + exit_distance
    .ok ((List.range num_points).map fun (i : ℕ) =>
      let frac := (i : ℝ) / ((num_points : ℝ) - 1)
      let offset := -approach_distance + total_distance * frac
      create_track_point center_lat center_lon track_id start_time
        (center_lon + offset * Real.sin bearing)
        (center_lat + offset * Real.cos bearing)
        (randAlt i) ((i : ℝ) * interval_seconds))

/-- The `path` built by `SquareTrackGenerator.generate` /
`RectangleTrackGenerator.generate`: each corner followed by the midpoint to
the next corner (cyclically). -/
def perimeter_path (corners : List (ℝ × ℝ)) : List (ℝ × ℝ) :=
  (List.range corners.length).flatMap fun (i : ℕ) =>
    let c := corners.getD i (0, 0)
    let nc := corners.getD ((i + 1) % corners.length) (0, 0)
    [c, ((c.1 + nc.1) / 2, (c.2 + nc.2) / 2)]

/-- Python slice `l[::step]` for `step ≥ 1`. -/
def sliceEvery (step : ℕ) : List α → List α
  | [] => []
  | a :: rest => a :: sliceEvery step (rest.drop (step - 1))
termination_by l => l.length
decreasing_by simp [List.length_drop]; omega

/-- The `corners` list of `SquareTrackGenerator.generate`. -/
def square_corners (center_lat center_lon side_length : ℝ) : List (ℝ × ℝ) :=
  let half := side_length / 2
  [(center_lat - half, center_lon - half),
   (center_lat - half, center_lon + half),
   (center_lat + half, center_lon + half),
   (center_lat + half, center_lon - half)]

/-- `SquareTrackGenerator.generate`. `len(path) // num_points` raises
`ZeroDivisionError` for `num_points = 0`, modelled as `.error`. -/
def square_generate (center_lat center_lon side_length : ℝ) (randAlt : ℕ → ℝ)
    (track_id : ℕ) (start_time : ℝ) (num_points : ℕ) (interval_seconds : ℝ) :
    Except String (List TrackPoint) :=
  if num_points = 0 then .error "integer division or modulo by zero"
  else
    let path := perimeter_path (square_corners center_lat center_lon side_length)
    let step := max 1 (path.length / num_points)
    .ok ((sliceEvery step path).enum.map fun p =>
      create_track_point center_lat center_lon track_id start_time
        p.2.2 p.2.1 (randAlt p.1) ((p.1 : ℝ) * interval_seconds))

/-- The `corners` list of `RectangleTrackGenerator.generate`. -/
def rectangle_corners (center_lat center_lon width height : ℝ) : List (ℝ × ℝ) :=
  let half_w := width / 2
  let half_h := height / 2
  [(center_lat - half_h, center_lon - half_w),
   (center_lat - half_h, center_lon + half_w),
   (center_lat + half_h, center_lon + half_w),
   (center_lat + half_h, center_lon - half_w)]

/-- `RectangleTrackGenerator.generate`. -/
def rectangle_generate (center_lat center_lon width height : ℝ)
    (randAlt : ℕ → ℝ) (track_id : ℕ) (start_time : ℝ)
    (num_points : ℕ) (interval_seconds : ℝ) : Except String (List TrackPoint) :=
  if num_points = 0 then .error "integer division or modulo by zero"
  else
    let path := perimeter_path (rectangle_corners center_lat center_lon width height)
    let step := max 1 (path.length / num_points)
    .ok ((sliceEvery step path).enum.map fun p =>
      create_track_point center_lat center_lon track_id start_time
        p.2.2 p.2.1 (randAlt p.1) ((p.1 : ℝ) * interval_seconds))

/-- `ZigzagTrackGenerator.generate` (guards the `num_points = 1` case). -/
def zigzag_generate (center_lat center_lon direction_deg amplitude frequency : ℝ)
    (randAlt : ℕ → ℝ) (track_id : ℕ) (start_time : ℝ)
    (num_points : ℕ) (interval_seconds : ℝ) : List TrackPoint :=
  let direction := radians direction_deg
  let total_distance : ℝ := 0.01
  (List.range num_points).map fun (i : ℕ) =>
    let fraction := if 1 < num_points then (i : ℝ) / ((num_points : ℝ) - 1) else 0
    let main_offset := total_distance * fraction
    let lateral_offset := amplitude * Real.sin (2 * Real.pi * frequency * fraction)
    let delta_lat_main := main_offset * Real.cos direction
    let delta_lon_main := main_offset * Real.sin direction
    let delta_lat_perp := lateral_offset * Real.cos (direction + Real.pi / 2)
    let delta_lon_perp := lateral_offset * Real.sin (direction + Real.pi / 2)
    create_track_point center_lat center_lon track_id start_time
      (center_lon + delta_lon_main + delta_lon_perp)
      (center_lat + delta_lat_main + delta_lat_perp)
      (randAlt i) ((i : ℝ) * interval_seconds)

/-- `SpiralTrackGenerator.generate` (`i / num_points` is float division; with
`num_points = 0` the loop body never runs, so no division occurs). -/
def spiral_generate (center_lat center_lon initial_radius radius_increment
    rotations : ℝ) (randAlt : ℕ → ℝ) (track_id : ℕ) (start_time : ℝ)
    (num_points : ℕ) (interval_seconds : ℝ) : List TrackPoint :=
  (List.range num_points).map fun (i : ℕ) =>
    let angle := 2 * Real.pi * rotations * ((i : ℝ) / (num_points : ℝ))
    let radius := initial_radius + radius_increment * (i : ℝ)
    create_track_point center_lat center_lon track_id start_time
      (center_lon + radius * Real.sin angle)
      (center_lat + radius * Real.cos angle)
      (randAlt i) ((i : ℝ) * interval_seconds)

/-! ## Ownship-relative generator (`OwnshipRelativeTrackGenerator`) -/

/-- A reference (ownship) trajectory sample. `load_ownship_trajectory`
normalizes alternate key names, so `lat`/`lon`/`alt` are plain fields; `time`
stays optional (`pt.get("time", i * 10)` in `generate`). -/
structure OwnshipPoint where
  time : Option ℝ
  lat : ℝ
  lon : ℝ
  alt : ℝ

/-- Default ownship sample (used only as the `getD` fallback in statements). -/
def ownshipPoint0 : OwnshipPoint := ⟨none, 0, 0, 0⟩

/-- `OwnshipRelativeTrackGenerator.compute_bearing` (normalized to `[0, 2π)`). -/
def compute_bearing (lat1 lon1 lat2 lon2 : ℝ) : ℝ :=
  let lat1r := radians lat1
  let lon1r := radians lon1
  let lat2r := radians lat2
  let lon2r := radians lon2
  let d_lon := lon2r - lon1r
  let x := Real.sin d_lon * Real.cos lat2r
  let y := Real.cos lat1r * Real.sin lat2r -
    Real.sin lat1r * Real.cos lat2r * Real.cos d_lon
  let bearing := atan2 x y
  if bearing < 0 then bearing + 2 * Real.pi else bearing

/-- `OwnshipRelativeTrackGenerator.destination_point`: great-circle destination
from `(lat, lon)` along `bearing` (radians) after `distance` meters, returned
as `(new_lat, new_lon)` in degrees. -/
def destination_point (lat lon bearing distance : ℝ) : ℝ × ℝ :=
  let R : ℝ := 6371000.0
  let lat_rad := radians lat
  let lon_rad := radians lon
  let angular_distance := distance / R
  let new_lat := Real.arcsin (Real.sin lat_rad * Real.cos angular_distance +
    Real.cos lat_rad * Real.sin angular_distance * Real.cos bearing)
  let new_lon := lon_rad + atan2
    (Real.sin bearing * Real.sin angular_distance * Real.cos lat_rad)
    (Real.cos angular_distance - Real.sin lat_rad * Real.sin new_lat)
  (degrees new_lat, degrees new_lon)

/-- Body of one iteration of `OwnshipRelativeTrackGenerator.generate`, given the
bearing chosen for sample `i`: direction dispatch (`ahead` / `behind` /
`opposite`, anything else treated as `ahead`), offset by `destination_point`,
fixed altitude offset, and `time_delta = pt.get("time", i * 10)`. The
constructor passes `center_lat = center_lon = 0` to the base class. -/
def ownship_relative_point (separation_distance : ℝ) (relative_direction : String)
    (alt_offset : ℝ) (track_id : ℕ) (start_time : ℝ) (i : ℕ)
    (pt : OwnshipPoint) (bearing : ℝ) : TrackPoint :=
  let ob : ℝ × ℝ :=
    if relative_direction = "ahead" then (bearing, separation_distance)
    else if relative_direction = "behind" then (bearing, -separation_distance)
    else if relative_direction = "opposite" then
      (fmod (bearing + Real.pi) (2 * Real.pi), separation_distance)
    else (bearing, separation_distance)
  let dest := destination_point pt.lat pt.lon ob.1 ob.2
  create_track_point 0 0 track_id start_time
    dest.2 dest.1 (pt.alt + alt_offset) (pt.time.getD ((i : ℝ) * 10))

/-- The loop of `OwnshipRelativeTrackGenerator.generate`, threading
`previous_bearing`. The source's index test `i < n - 1` is expressed as the
remaining list being nonempty; `i` counts the samples already consumed. When
there is a next sample the bearing to it is used and remembered; at the last
sample the remembered bearing is reused (0.0 when there is none, i.e. a
single-sample reference). -/
def ownship_go (separation_distance : ℝ) (relative_direction : String)
    (alt_offset : ℝ) (track_id : ℕ) (start_time : ℝ) :
    ℕ → Option ℝ → List OwnshipPoint → List TrackPoint
  | _, _, [] => []
  | i, previous_bearing, pt :: rest =>
    match rest with
    | next :: _ =>
      let bearing := compute_bearing pt.lat pt.lon next.lat next.lon
      ownship_relative_point separation_distance relative_direction alt_offset
          track_id start_time i pt bearing ::
        ownship_go separation_distance relative_direction alt_offset track_id
          start_time (i + 1) (some bearing) rest
    | [] =>
      let bearing := previous_bearing.getD 0
      [ownship_relative_point separation_distance relative_direction alt_offset
        track_id start_time i pt bearing]

/-- `OwnshipRelativeTrackGenerator.generate` (the constructor lowercases
`relative_direction`). -/
def ownship_generate (ownship_track : List OwnshipPoint)
    (separation_distance : ℝ) (relative_direction : String) (alt_offset : ℝ)
    (track_id : ℕ) (start_time : ℝ) : List TrackPoint :=
  ownship_go separation_distance (str_lower relative_direction) alt_offset
    track_id start_time 0 none ownship_track

/-! ## Orchestration (`ArtificialTrackGenerator`) -/

/-- `ArtificialTrackGenerator.generate_track`: builds the kwargs (center,
altitude band, track id) and calls the selected generator with
`(num_points, interval_seconds)`; every shape parameter keeps its class
default (radius 0.005, radii 0.01/0.005, approach/exit 0.02 bearing 45,
side 0.02, width 0.03 height 0.01, direction 0 amplitude 0.005 frequency 2,
initial radius 0.002 increment 0.001 rotations 3). The altitude band enters
through the draws `randAlt` of `random.uniform(min_alt, max_alt)`. -/
def generate_track (cls : GenKind) (dLat dLon randAlt : ℕ → ℝ) (track_id : ℕ)
    (center_lat center_lon : ℝ) (start_time : ℝ) (num_points : ℕ)
    (interval_seconds : ℝ) : Except String (List TrackPoint) :=
  match cls with
  | .random => .ok (random_generate center_lat center_lon dLat dLon randAlt
      track_id start_time num_points interval_seconds)
  | .circular => .ok (circular_generate center_lat center_lon 0.005 randAlt
      track_id start_time num_points interval_seconds)
  | .elliptical => .ok (elliptical_generate center_lat center_lon 0.01 0.005
      randAlt track_id start_time num_points interval_seconds)
  | .flyby => flyby_generate center_lat center_lon 0.02 0.02 45 randAlt
      track_id start_time num_points interval_seconds
  | .square => square_generate center_lat center_lon 0.02 randAlt
      track_id start_time num_points interval_seconds
  | .rectangle => rectangle_generate center_lat center_lon 0.03 0.01 randAlt
      track_id start_time num_points interval_seconds
  | .zigzag => .ok (zigzag_generate center_lat center_lon 0 0.005 2 randAlt
      track_id start_time num_points interval_seconds)
  | .spiral => .ok (spiral_generate center_lat center_lon 0.002 0.001 3 randAlt
      track_id start_time num_points interval_seconds)

/-- The `else` (independent-mode, `fly_along = False`) branch of
`ArtificialTrackGenerator.generate`: track `i` gets center latitude offset
`separation_distance * i`, unchanged longitude, start time
`base_start_time + i * time_delay`, and id `initial_track_id + i` with
`initial_track_id = 10000`. The random draws of track `i` are the streams
`dLat i`, `dLon i`, `randAlt i`. -/
def artificial_generate_independent (track_generator_class : String)
    (num_tracks : ℕ) (center_lat center_lon separation_distance time_delay : ℝ)
    (dLat dLon randAlt : ℕ → ℕ → ℝ) (base_start_time : ℝ)
    (num_points : ℕ) (interval_seconds : ℝ) :
    Except String (List (List TrackPoint)) :=
  (List.range num_tracks).mapM fun (i : ℕ) =>
    generate_track (select_generator track_generator_class)
      (dLat i) (dLon i) (randAlt i) (10000 + i)
      (center_lat + separation_distance * (i : ℝ)) center_lon
      (base_start_time + (i : ℝ) * time_delay) num_points interval_seconds

end

/-! ## Theorems -/

/-- If the iteration index has already passed 1, the origin loop can never
assign the world origin. -/
theorem originLoop_of_two_le (l : List (String × List Waypoint)) :
    ∀ idx, 2 ≤ idx → originLoop idx l = none := by
  induction l with
  | nil => intro idx _; rfl
  | cons head rest ih =>
    intro idx hidx
    obtain ⟨name, wps⟩ := head
    cases wps with
    | nil =>
      rw [show originLoop idx ((name, []) :: rest) = originLoop (idx + 1) rest from rfl]
      exact ih (idx + 1) (by omega)
    | cons w ws =>
      rw [show originLoop idx ((name, w :: ws) :: rest) =
        (if idx = 1 then some ⟨w.lat, w.lon, w.alt.getD (11609/100 : ℚ)⟩
         else originLoop (idx + 1) rest) from rfl]
      rw [if_neg (by omega)]
      exact ih (idx + 1) (by omega)

/-- C2 (counterexample): with an empty lexicographically-first trajectory file
(`01_trajectory.json`) and a non-empty later file (`02_trajectory.json`,
first waypoint lat 1, lon 2, alt 3), the assembled world origin is left unset,
whereas the claim says it equals `some ⟨1, 2, 3⟩`, the first waypoint of the
first non-empty trajectory. -/
theorem scenario_world_origin_first_file_empty :
    scenario_world_origin
      [("02_trajectory.json", [⟨1, 2, some 3⟩]), ("01_trajectory.json", [])] = none ∧
    (none : Option WorldOrigin) ≠ some ⟨1, 2, 3⟩ := by
  exact ⟨by decide, by decide⟩

/-- C2 (amended): the world origin is assigned exactly when the
lexicographically first `_trajectory.json` file is non-empty, in which case it
is that file's first waypoint (altitude from the waypoint or the fixed
fallback 116.09 when absent); when the lexicographically first file is empty
the origin is left unset even if a later file is non-empty. -/
theorem scenario_world_origin_spec (dir : List (String × List Waypoint)) :
    scenario_world_origin dir =
      match trajectory_files dir with
      | [] => none
      | (_, []) :: _ => none
      | (_, w :: _) :: _ => some ⟨w.lat, w.lon, w.alt.getD (11609/100 : ℚ)⟩ := by
  unfold scenario_world_origin
  cases h : trajectory_files dir with
  | nil => rfl
  | cons head rest =>
    obtain ⟨name, wps⟩ := head
    cases wps with
    | nil =>
      show originLoop 2 rest = none
      exact originLoop_of_two_le rest 2 (le_refl 2)
    | cons w ws => rfl

/-- C7: any maneuver selector whose lowercasing is none of the eight known
names selects the random generator, identically to selecting `"random"`,
with no error raised. -/
theorem select_generator_unknown_fallback (s : String)
    (h : str_lower s ∉ (["random", "circular", "elliptical", "flyby", "square",
      "rectangle", "zigzag", "spiral"] : List String)) :
    select_generator s = GenKind.random ∧
      select_generator s = select_generator "random" := by
  simp only [List.mem_cons, List.not_mem_nil, or_false, not_or] at h
  obtain ⟨h1, h2, h3, h4, h5, h6, h7, h8⟩ := h
  have hs : select_generator s = GenKind.random := by
    simp only [select_generator, if_neg h1, if_neg h2, if_neg h3, if_neg h4,
      if_neg h5, if_neg h6, if_neg h7, if_neg h8]
  have hr : select_generator "random" = GenKind.random := by decide
  exact ⟨hs, hs.trans hr.symm⟩

/-- C7 (witness): the unknown selector `"Helix"` falls back to the random
generator. -/
theorem select_generator_unknown_fallback_witness :
    str_lower "Helix" ∉ (["random", "circular", "elliptical", "flyby", "square",
      "rectangle", "zigzag", "spiral"] : List String) ∧
    (select_generator "Helix" = GenKind.random ∧
      select_generator "Helix" = select_generator "random") :=
  ⟨by decide, select_generator_unknown_fallback "Helix" (by decide)⟩

/-- C8: `load_ownship_trajectory` errors exactly when the lowercased format is
neither `json` nor `csv`; for those two formats (any casing) it reads the
corresponding file content, never defaulting an unsupported format to another
one. -/
theorem load_ownship_trajectory_format_check {α : Type} (json_data csv_data : α)
    (file_format : String) :
    ((∃ e, load_ownship_trajectory json_data csv_data file_format = .error e) ↔
      str_lower file_format ≠ "json" ∧ str_lower file_format ≠ "csv") ∧
    (str_lower file_format = "json" →
      load_ownship_trajectory json_data csv_data file_format = .ok json_data) ∧
    (str_lower file_format = "csv" →
      load_ownship_trajectory json_data csv_data file_format = .ok csv_data) := by
  unfold load_ownship_trajectory
  by_cases hj : str_lower file_format = "json" <;>
    by_cases hc : str_lower file_format = "csv" <;>
    simp [hj, hc]

/-- C8 (witness): `"JSON"` and `"Csv"` load the respective contents, `"xml"`
errors. -/
theorem load_ownship_trajectory_format_check_witness :
    (str_lower "JSON" = "json" ∧
      load_ownship_trajectory (0 : ℕ) 1 "JSON" = Except.ok 0) ∧
    (str_lower "Csv" = "csv" ∧
      load_ownship_trajectory (0 : ℕ) 1 "Csv" = Except.ok 1) ∧
    (∃ e, load_ownship_trajectory (0 : ℕ) 1 "xml" = Except.error e) :=
  ⟨⟨by decide, (load_ownship_trajectory_format_check 0 1 "JSON").2.1 (by decide)⟩,
   ⟨by decide, (load_ownship_trajectory_format_check 0 1 "Csv").2.2 (by decide)⟩,
   ((load_ownship_trajectory_format_check 0 1 "xml").1).2 ⟨by decide, by decide⟩⟩

/-- `getD` on a map over `List.range`. -/
theorem getD_map_range {α : Type} (f : ℕ → α) {n i : ℕ} (hi : i < n) (d : α) :
    ((List.range n).map f).getD i d = f i := by
  simp [List.getD_eq_getElem?_getD, List.getElem?_map, List.getElem?_range, hi]

/-- C5: point `i` of the circular generator has latitude
`center_lat + radius·cos θ_i` and longitude `center_lon + radius·sin θ_i` with
`θ_i = (2π/num_points)·i`; every point lies at (squared) distance `radius` from
the center in degree coordinates, and consecutive angular positions differ by
`2π/num_points`. -/
theorem circular_generate_spec (center_lat center_lon radius : ℝ)
    (randAlt : ℕ → ℝ) (track_id : ℕ) (start_time : ℝ)
    (num_points : ℕ) (interval_seconds : ℝ)
    (hn : 1 ≤ num_points) (i : ℕ) (hi : i < num_points) :
    ((circular_generate center_lat center_lon radius randAlt track_id
        start_time num_points interval_seconds).getD i trackPoint0).latitude =
      center_lat + radius * Real.cos ((2 * Real.pi / (num_points : ℝ)) * (i : ℝ)) ∧
    ((circular_generate center_lat center_lon radius randAlt track_id
        start_time num_points interval_seconds).getD i trackPoint0).longitude =
      center_lon + radius * Real.sin ((2 * Real.pi / (num_points : ℝ)) * (i : ℝ)) ∧
    (((circular_generate center_lat center_lon radius randAlt track_id
        start_time num_points interval_seconds).getD i trackPoint0).latitude -
        center_lat) ^ 2 +
      (((circular_generate center_lat center_lon radius randAlt track_id
        start_time num_points interval_seconds).getD i trackPoint0).longitude -
        center_lon) ^ 2 = radius ^ 2 ∧
    (2 * Real.pi / (num_points : ℝ)) * ((i : ℝ) + 1) -
      (2 * Real.pi / (num_points : ℝ)) * (i : ℝ) = 2 * Real.pi / (num_points : ℝ) := by
  have hgd : (circular_generate center_lat center_lon radius randAlt track_id
      start_time num_points interval_seconds).getD i trackPoint0 =
      create_track_point center_lat center_lon track_id start_time
        (center_lon + radius * Real.sin ((2 * Real.pi / (num_points : ℝ)) * (i : ℝ)))
        (center_lat + radius * Real.cos ((2 * Real.pi / (num_points : ℝ)) * (i : ℝ)))
        (randAlt i) ((i : ℝ) * interval_seconds) := by
    unfold circular_generate
    rw [getD_map_range _ hi]
  refine ⟨by rw [hgd]; rfl, by rw [hgd]; rfl, ?_, by ring⟩
  rw [hgd]
  show (center_lat + radius * Real.cos ((2 * Real.pi / (num_points : ℝ)) * (i : ℝ)) -
      center_lat) ^ 2 +
    (center_lon + radius * Real.sin ((2 * Real.pi / (num_points : ℝ)) * (i : ℝ)) -
      center_lon) ^ 2 = radius ^ 2
  nlinarith [Real.sin_sq_add_cos_sq ((2 * Real.pi / (num_points : ℝ)) * (i : ℝ))]

/-- C5 (witness): the circular formulas at `num_points = 4`, `i = 1`. -/
theorem circular_generate_spec_witness :
    (1 ≤ 4 ∧ 1 < 4) ∧
    (((circular_generate 0 0 1 (fun _ => 0) 10000 0 4 10).getD 1
        trackPoint0).latitude =
      0 + 1 * Real.cos ((2 * Real.pi / ((4 : ℕ) : ℝ)) * ((1 : ℕ) : ℝ)) ∧
    ((circular_generate 0 0 1 (fun _ => 0) 10000 0 4 10).getD 1
        trackPoint0).longitude =
      0 + 1 * Real.sin ((2 * Real.pi / ((4 : ℕ) : ℝ)) * ((1 : ℕ) : ℝ)) ∧
    (((circular_generate 0 0 1 (fun _ => 0) 10000 0 4 10).getD 1
        trackPoint0).latitude - 0) ^ 2 +
      (((circular_generate 0 0 1 (fun _ => 0) 10000 0 4 10).getD 1
        trackPoint0).longitude - 0) ^ 2 = 1 ^ 2 ∧
    (2 * Real.pi / ((4 : ℕ) : ℝ)) * (((1 : ℕ) : ℝ) + 1) -
      (2 * Real.pi / ((4 : ℕ) : ℝ)) * ((1 : ℕ) : ℝ) =
        2 * Real.pi / ((4 : ℕ) : ℝ)) :=
  ⟨⟨by norm_num, by norm_num⟩,
    circular_generate_spec 0 0 1 (fun _ => 0) 10000 0 4 10 (by norm_num) 1
      (by norm_num)⟩

/-- C10: `FlybyTrackGenerator.generate` divides by `num_points - 1` without a
guard, so `num_points = 1` raises a division-by-zero error; every other count
yields exactly `num_points` points; `ZigzagTrackGenerator.generate` guards the
`num_points = 1` case and returns a single point. -/
theorem flyby_zigzag_num_points (center_lat center_lon approach_distance
    exit_distance bearing direction amplitude frequency : ℝ) (randAlt : ℕ → ℝ)
    (track_id : ℕ) (start_time : ℝ) (interval_seconds : ℝ) :
    (∃ e, flyby_generate center_lat center_lon approach_distance exit_distance
        bearing randAlt track_id start_time 1 interval_seconds = .error e) ∧
    (∀ n : ℕ, n ≠ 1 → ∃ pts, flyby_generate center_lat center_lon
        approach_distance exit_distance bearing randAlt track_id start_time n
        interval_seconds = .ok pts ∧ pts.length = n) ∧
    (zigzag_generate center_lat center_lon direction amplitude frequency
        randAlt track_id start_time 1 interval_seconds).length = 1 := by
  refine ⟨⟨"division by zero", ?_⟩, ?_, ?_⟩
  · unfold flyby_generate
    rw [if_pos rfl]
  · intro n hn
    unfold flyby_generate
    rw [if_neg hn]
    exact ⟨_, rfl, by simp⟩
  · simp [zigzag_generate]

/-- C10 (witness): `num_points = 5` succeeds with 5 points (and the
unconditional conjuncts at concrete parameters). -/
theorem flyby_zigzag_num_points_witness :
    (5 : ℕ) ≠ 1 ∧
    (∃ pts, flyby_generate 0 0 1 1 45 (fun _ => 0) 10000 0 5 10 = .ok pts ∧
      pts.length = 5) :=
  ⟨by norm_num,
    (flyby_zigzag_num_points 0 0 1 1 45 0 0 2 (fun _ => 0) 10000 0 10).2.1 5
      (by norm_num)⟩

/-- A pointwise property of the image holds for every member of a mapped list. -/
theorem mem_map_bound {α β : Type} (P : β → Prop) (g : α → β) (l : List α)
    (h : ∀ a, P (g a)) : ∀ p ∈ l.map g, P p := by
  intro p hp
  obtain ⟨a, -, rfl⟩ := List.mem_map.1 hp
  exact h a

/-- C1 (counterexample): the ownship-relative generator ignores the altitude
band. Its constructor passes `center_alt = 0`, so `min_alt = max_alt = 0`, yet
`generate` outputs `reference altitude + alt_offset`: for a one-sample
reference at altitude 500 with `alt_offset = 0` the generated altitude is 500,
outside `[0, 0]`. -/
theorem ownship_generate_altitude_unbounded :
    ((ownship_generate [⟨some 0, 0, 0, 500⟩] 100 "ahead" 0 10001 0).map
      TrackPoint.altitude) = [500] ∧ ¬ ((500 : ℝ) ≤ 0) := by
  constructor
  · have hdir : str_lower "ahead" = "ahead" := by decide
    simp only [ownship_generate, hdir, ownship_go, ownship_relative_point,
      create_track_point, List.map_cons, List.map_nil]
    norm_num
  · norm_num

/-- C1 (amended): for the eight parametric maneuver generators, if every
per-point uniform altitude draw lies in `[min_alt, max_alt]` (as
`random.uniform(min_alt, max_alt)` guarantees when `min_alt ≤ max_alt`), then
every generated point's altitude lies in `[min_alt, max_alt]` inclusive. The
ownship-relative generator is excluded: it outputs reference altitude plus
`alt_offset` regardless of the band. -/
theorem altitude_bound_parametric (min_alt max_alt : ℝ) (dLat dLon randAlt : ℕ → ℝ)
    (h : ∀ i, min_alt ≤ randAlt i ∧ randAlt i ≤ max_alt)
    (center_lat center_lon radius radius_x radius_y approach_distance
      exit_distance bearing side_length width height direction amplitude
      frequency initial_radius radius_increment rotations : ℝ)
    (track_id : ℕ) (start_time : ℝ) (num_points : ℕ) (interval_seconds : ℝ) :
    (∀ p ∈ random_generate center_lat center_lon dLat dLon randAlt track_id
        start_time num_points interval_seconds,
      min_alt ≤ p.altitude ∧ p.altitude ≤ max_alt) ∧
    (∀ p ∈ circular_generate center_lat center_lon radius randAlt track_id
        start_time num_points interval_seconds,
      min_alt ≤ p.altitude ∧ p.altitude ≤ max_alt) ∧
    (∀ p ∈ elliptical_generate center_lat center_lon radius_x radius_y randAlt
        track_id start_time num_points interval_seconds,
      min_alt ≤ p.altitude ∧ p.altitude ≤ max_alt) ∧
    (∀ pts, flyby_generate center_lat center_lon approach_distance
        exit_distance bearing randAlt track_id start_time num_points
        interval_seconds = .ok pts →
      ∀ p ∈ pts, min_alt ≤ p.altitude ∧ p.altitude ≤ max_alt) ∧
    (∀ pts, square_generate center_lat center_lon side_length randAlt track_id
        start_time num_points interval_seconds = .ok pts →
      ∀ p ∈ pts, min_alt ≤ p.altitude ∧ p.altitude ≤ max_alt) ∧
    (∀ pts, rectangle_generate center_lat center_lon width height randAlt
        track_id start_time num_points interval_seconds = .ok pts →
      ∀ p ∈ pts, min_alt ≤ p.altitude ∧ p.altitude ≤ max_alt) ∧
    (∀ p ∈ zigzag_generate center_lat center_lon direction amplitude frequency
        randAlt track_id start_time num_points interval_seconds,
      min_alt ≤ p.altitude ∧ p.altitude ≤ max_alt) ∧
    (∀ p ∈ spiral_generate center_lat center_lon initial_radius
        radius_increment rotations randAlt track_id start_time num_points
        interval_seconds,
      min_alt ≤ p.altitude ∧ p.altitude ≤ max_alt) := by
  refine ⟨mem_map_bound _ _ _ (fun i => h i),
    mem_map_bound _ _ _ (fun i => h i),
    mem_map_bound _ _ _ (fun i => h i), ?_, ?_, ?_,
    mem_map_bound _ _ _ (fun i => h i),
    mem_map_bound _ _ _ (fun i => h i)⟩
  · intro pts hpts
    unfold flyby_generate at hpts
    by_cases h1 : num_points = 1
    · rw [if_pos h1] at hpts
      exact absurd hpts (by simp)
    · rw [if_neg h1] at hpts
      simp only [Except.ok.injEq] at hpts
      subst hpts
      exact mem_map_bound _ _ _ (fun i => h i)
  · intro pts hpts
    unfold square_generate at hpts
    by_cases h0 : num_points = 0
    · rw [if_pos h0] at hpts
      exact absurd hpts (by simp)
    · rw [if_neg h0] at hpts
      simp only [Except.ok.injEq] at hpts
      subst hpts
      exact mem_map_bound _ _ _ (fun q => h q.1)
  · intro pts hpts
    unfold rectangle_generate at hpts
    by_cases h0 : num_points = 0
    · rw [if_pos h0] at hpts
      exact absurd hpts (by simp)
    · rw [if_neg h0] at hpts
      simp only [Except.ok.injEq] at hpts
      subst hpts
      exact mem_map_bound _ _ _ (fun q => h q.1)

/-- C1 (witness): applying the bound with the constant draw 0 in the band
`[0, 0]` to the first point of a 3-point random track. -/
theorem altitude_bound_parametric_witness :
    (0 : ℝ) ≤ ((random_generate 0 0 (fun _ => 0) (fun _ => 0) (fun _ => 0)
      10000 0 3 10).getD 0 trackPoint0).altitude ∧
    ((random_generate 0 0 (fun _ => 0) (fun _ => 0) (fun _ => 0)
      10000 0 3 10).getD 0 trackPoint0).altitude ≤ 0 :=
  (altitude_bound_parametric 0 0 (fun _ => 0) (fun _ => 0) (fun _ => 0)
      (fun _ => ⟨le_refl 0, le_refl 0⟩) 0 0 1 1 1 1 1 45 1 1 1 0 1 2 1 1 3
      10000 0 3 10).1 _
    (by
      have hl : 0 < (random_generate 0 0 (fun _ => 0) (fun _ => 0) (fun _ => 0)
          10000 0 3 10).length := by simp [random_generate]
      rw [List.getD_eq_getElem?_getD, List.getElem?_eq_getElem hl,
        Option.getD_some]
      exact List.getElem_mem hl)

/-- Length of a strided slice: `⌈length / step⌉`. -/
theorem sliceEvery_length {α : Type} (step : ℕ) (hs : 1 ≤ step) (l : List α) :
    (sliceEvery step l).length = (l.length + step - 1) / step := by
  induction l using sliceEvery.induct step with
  | case1 =>
    rw [sliceEvery]
    simp only [List.length_nil, Nat.zero_add]
    exact (Nat.div_eq_of_lt (by omega)).symm
  | case2 a rest ih =>
    rw [sliceEvery]
    simp only [List.length_cons, List.length_drop] at ih ⊢
    rw [ih]
    have hdiv := Nat.add_div_right rest.length hs
    rcases le_or_lt (step - 1) rest.length with hc | hc
    · have h1 : rest.length - (step - 1) + step - 1 = rest.length := by omega
      have h2 : rest.length + 1 + step - 1 = rest.length + step := by omega
      rw [h1, h2, hdiv]
    · have h1 : rest.length - (step - 1) + step - 1 = step - 1 := by omega
      have h2 : rest.length + 1 + step - 1 = rest.length + step := by omega
      rw [h1, h2, hdiv, Nat.div_eq_of_lt (by omega), Nat.div_eq_of_lt (by omega)]

/-- `getD` after `drop` shifts the index. -/
theorem getD_drop {α : Type} (l : List α) (n i : ℕ) (d : α) :
    (l.drop n).getD i d = l.getD (n + i) d := by
  simp [List.getD_eq_getElem?_getD, List.getElem?_drop]

/-- Element `k` of a strided slice is element `k · step` of the list. -/
theorem sliceEvery_getD {α : Type} (step : ℕ) (hs : 1 ≤ step) (l : List α)
    (d : α) : ∀ k, (sliceEvery step l).getD k d = l.getD (k * step) d := by
  induction l using sliceEvery.induct step with
  | case1 => intro k; rw [sliceEvery]; simp
  | case2 a rest ih =>
    intro k
    rw [sliceEvery]
    cases k with
    | zero => simp
    | succ k =>
      have hmul : (k + 1) * step = (k * step + (step - 1)) + 1 := by
        have hx : (k + 1) * step = k * step + step := by ring
        omega
      rw [List.getD_cons_succ, ih k, getD_drop, Nat.add_comm (step - 1) (k * step),
        hmul, List.getD_cons_succ]

/-- The perimeter path holds two points per corner. -/
theorem perimeter_path_length (corners : List (ℝ × ℝ)) :
    (perimeter_path corners).length = 2 * corners.length := by
  simp [perimeter_path, List.length_flatMap, Function.comp_def, List.map_const',
    List.sum_replicate, smul_eq_mul, Nat.mul_comm]

/-- `getD` through `enum.map`. -/
theorem getD_enum_map {α β : Type} (g : ℕ × α → β) (l : List α) (k : ℕ)
    (hk : k < l.length) (d : α) (db : β) :
    (l.enum.map g).getD k db = g (k, l.getD k d) := by
  have h1 : k < (l.enum.map g).length := by
    simp [List.enum_length, hk]
  have h2 : k < l.enum.length := by
    simp [List.enum_length, hk]
  rw [List.getD_eq_getElem?_getD, List.getElem?_eq_getElem h1, Option.getD_some,
    List.getElem_map, List.getElem_enum,
    List.getD_eq_getElem?_getD, List.getElem?_eq_getElem hk, Option.getD_some]

/-- Unfolding of `square_generate` in the non-error case. -/
theorem square_generate_eq (center_lat center_lon side_length : ℝ)
    (randAlt : ℕ → ℝ) (track_id : ℕ) (start_time : ℝ) (num_points : ℕ)
    (interval_seconds : ℝ) (hn : num_points ≠ 0) :
    square_generate center_lat center_lon side_length randAlt track_id
        start_time num_points interval_seconds =
      .ok ((sliceEvery
          (max 1 ((perimeter_path (square_corners center_lat center_lon
            side_length)).length / num_points))
          (perimeter_path (square_corners center_lat center_lon side_length))).enum.map
        fun p => create_track_point center_lat center_lon track_id start_time
          p.2.2 p.2.1 (randAlt p.1) ((p.1 : ℝ) * interval_seconds)) := by
  unfold square_generate
  rw [if_neg hn]

/-- Unfolding of `rectangle_generate` in the non-error case. -/
theorem rectangle_generate_eq (center_lat center_lon width height : ℝ)
    (randAlt : ℕ → ℝ) (track_id : ℕ) (start_time : ℝ) (num_points : ℕ)
    (interval_seconds : ℝ) (hn : num_points ≠ 0) :
    rectangle_generate center_lat center_lon width height randAlt track_id
        start_time num_points interval_seconds =
      .ok ((sliceEvery
          (max 1 ((perimeter_path (rectangle_corners center_lat center_lon
            width height)).length / num_points))
          (perimeter_path (rectangle_corners center_lat center_lon width
            height))).enum.map
        fun p => create_track_point center_lat center_lon track_id start_time
          p.2.2 p.2.1 (randAlt p.1) ((p.1 : ℝ) * interval_seconds)) := by
  unfold rectangle_generate
  rw [if_neg hn]

/-- The square perimeter path has 8 points (4 corners, 4 midpoints). -/
theorem square_path_length8 (center_lat center_lon side_length : ℝ) :
    (perimeter_path (square_corners center_lat center_lon side_length)).length
      = 8 := by
  rw [perimeter_path_length]
  rfl

/-- The rectangle perimeter path has 8 points (4 corners, 4 midpoints). -/
theorem rectangle_path_length8 (center_lat center_lon width height : ℝ) :
    (perimeter_path (rectangle_corners center_lat center_lon width
      height)).length = 8 := by
  rw [perimeter_path_length]
  rfl

/-- C3 (counterexample): at the class default `num_points = 12` the square
generator's stride is `max 1 (8 / 12) = 1` and the result has 8 points, not
the requested 12. -/
theorem square_generate_point_count_default :
    (square_generate 0 0 1 (fun _ => 0) 10000 0 12 10).map List.length =
      Except.ok 8 ∧ (8 : ℕ) ≠ 12 := by
  refine ⟨?_, by norm_num⟩
  rw [square_generate_eq 0 0 1 (fun _ => 0) 10000 0 12 10 (by norm_num)]
  simp only [Except.map, List.length_map, List.enum_length]
  rw [sliceEvery_length _ (le_max_left 1 _), square_path_length8]
  norm_num

/-- C3 (amended): for every `num_points ≥ 1`, the square and rectangle
generators sample the 8-point perimeter path (4 corners plus 4 edge midpoints)
at stride `max 1 (⌊8 / num_points⌋)` — point `k` of the result is path point
`k · stride` — and return `⌈8 / stride⌉` points, which equals the requested
`num_points` only for `num_points ∈ {1, 2, 4, 8}`. -/
theorem square_rectangle_stride_spec (center_lat center_lon side_length width
    height : ℝ) (randAlt : ℕ → ℝ) (track_id : ℕ) (start_time : ℝ)
    (num_points : ℕ) (interval_seconds : ℝ) (hn : 1 ≤ num_points) :
    ((square_generate center_lat center_lon side_length randAlt track_id
        start_time num_points interval_seconds).map List.length =
      .ok ((8 + max 1 (8 / num_points) - 1) / max 1 (8 / num_points))) ∧
    (∀ pts, square_generate center_lat center_lon side_length randAlt track_id
        start_time num_points interval_seconds = .ok pts →
      ∀ k, k < pts.length →
        (pts.getD k trackPoint0).latitude =
          ((perimeter_path (square_corners center_lat center_lon
            side_length)).getD (k * max 1 (8 / num_points)) (0, 0)).1 ∧
        (pts.getD k trackPoint0).longitude =
          ((perimeter_path (square_corners center_lat center_lon
            side_length)).getD (k * max 1 (8 / num_points)) (0, 0)).2) ∧
    ((rectangle_generate center_lat center_lon width height randAlt track_id
        start_time num_points interval_seconds).map List.length =
      .ok ((8 + max 1 (8 / num_points) - 1) / max 1 (8 / num_points))) ∧
    (∀ pts, rectangle_generate center_lat center_lon width height randAlt
        track_id start_time num_points interval_seconds = .ok pts →
      ∀ k, k < pts.length →
        (pts.getD k trackPoint0).latitude =
          ((perimeter_path (rectangle_corners center_lat center_lon width
            height)).getD (k * max 1 (8 / num_points)) (0, 0)).1 ∧
        (pts.getD k trackPoint0).longitude =
          ((perimeter_path (rectangle_corners center_lat center_lon width
            height)).getD (k * max 1 (8 / num_points)) (0, 0)).2) := by
  have hn0 : num_points ≠ 0 := by omega
  refine ⟨?_, ?_, ?_, ?_⟩
  · rw [square_generate_eq center_lat center_lon side_length randAlt track_id
      start_time num_points interval_seconds hn0]
    simp only [Except.map, List.length_map, List.enum_length]
    rw [sliceEvery_length _ (le_max_left 1 _), square_path_length8]
  · intro pts hpts k hk
    rw [square_generate_eq center_lat center_lon side_length randAlt track_id
      start_time num_points interval_seconds hn0] at hpts
    simp only [Except.ok.injEq] at hpts
    subst hpts
    simp only [square_path_length8] at hk ⊢
    have hk' : k < (sliceEvery (max 1 (8 / num_points))
        (perimeter_path (square_corners center_lat center_lon
          side_length))).length := by
      simpa [List.enum_length] using hk
    rw [getD_enum_map _ _ _ hk' (0, 0),
      sliceEvery_getD _ (le_max_left 1 _) _ (0, 0) k]
    exact ⟨rfl, rfl⟩
  · rw [rectangle_generate_eq center_lat center_lon width height randAlt
      track_id start_time num_points interval_seconds hn0]
    simp only [Except.map, List.length_map, List.enum_length]
    rw [sliceEvery_length _ (le_max_left 1 _), rectangle_path_length8]
  · intro pts hpts k hk
    rw [rectangle_generate_eq center_lat center_lon width height randAlt
      track_id start_time num_points interval_seconds hn0] at hpts
    simp only [Except.ok.injEq] at hpts
    subst hpts
    simp only [rectangle_path_length8] at hk ⊢
    have hk' : k < (sliceEvery (max 1 (8 / num_points))
        (perimeter_path (rectangle_corners center_lat center_lon width
          height))).length := by
      simpa [List.enum_length] using hk
    rw [getD_enum_map _ _ _ hk' (0, 0),
      sliceEvery_getD _ (le_max_left 1 _) _ (0, 0) k]
    exact ⟨rfl, rfl⟩

/-- C3 (witness): at `num_points = 2` (stride 4) both generators return 2
points. -/
theorem square_rectangle_stride_spec_witness :
    (square_generate 0 0 1 (fun _ => 0) 10000 0 2 10).map List.length =
      .ok ((8 + max 1 (8 / 2) - 1) / max 1 (8 / 2)) ∧
    (rectangle_generate 0 0 3 1 (fun _ => 0) 10000 0 2 10).map List.length =
      .ok ((8 + max 1 (8 / 2) - 1) / max 1 (8 / 2)) :=
  ⟨(square_rectangle_stride_spec 0 0 1 3 1 (fun _ => 0) 10000 0 2 10
      (by norm_num)).1,
   (square_rectangle_stride_spec 0 0 1 3 1 (fun _ => 0) 10000 0 2 10
      (by norm_num)).2.2.1⟩

/-- The ownship-relative loop emits exactly one point per reference sample. -/
theorem ownship_go_length (separation_distance : ℝ) (relative_direction : String)
    (alt_offset : ℝ) (track_id : ℕ) (start_time : ℝ) :
    ∀ (l : List OwnshipPoint) (i : ℕ) (prev : Option ℝ),
      (ownship_go separation_distance relative_direction alt_offset track_id
        start_time i prev l).length = l.length := by
  intro l
  induction l with
  | nil => intro i prev; rfl
  | cons pt rest ih =>
    intro i prev
    cases rest with
    | nil => rfl
    | cons next t =>
      rw [ownship_go]
      simp only [List.length_cons]
      rw [ih (i + 1) (some (compute_bearing pt.lat pt.lon next.lat next.lon))]
      simp

/-- Characterization of a non-final point of the ownship-relative loop: sample
`k` is offset along the bearing from reference sample `k` to sample `k + 1`. -/
theorem ownship_go_getD_lt (separation_distance : ℝ) (relative_direction : String)
    (alt_offset : ℝ) (track_id : ℕ) (start_time : ℝ) :
    ∀ (l : List OwnshipPoint) (i : ℕ) (prev : Option ℝ) (k : ℕ),
      k + 1 < l.length →
      (ownship_go separation_distance relative_direction alt_offset track_id
          start_time i prev l).getD k trackPoint0 =
        ownship_relative_point separation_distance relative_direction alt_offset
          track_id start_time (i + k) (l.getD k ownshipPoint0)
          (compute_bearing (l.getD k ownshipPoint0).lat
            (l.getD k ownshipPoint0).lon
            (l.getD (k + 1) ownshipPoint0).lat
            (l.getD (k + 1) ownshipPoint0).lon) := by
  intro l
  induction l with
  | nil => intro i prev k hk; simp at hk
  | cons pt rest ih =>
    intro i prev k hk
    cases rest with
    | nil => simp at hk
    | cons next t =>
      rw [ownship_go]
      cases k with
      | zero => simp
      | succ k =>
        rw [List.getD_cons_succ,
          ih (i + 1) (some (compute_bearing pt.lat pt.lon next.lat next.lon)) k
            (by simpa using hk)]
        simp only [List.getD_cons_succ]
        rw [show i + 1 + k = i + (k + 1) from by omega]

/-- Characterization of the final point of the ownship-relative loop for a
reference of at least two samples: it reuses the bearing of the previous
segment, from sample `n - 2` to sample `n - 1`. -/
theorem ownship_go_getD_last (separation_distance : ℝ) (relative_direction : String)
    (alt_offset : ℝ) (track_id : ℕ) (start_time : ℝ) :
    ∀ (l : List OwnshipPoint) (i : ℕ) (prev : Option ℝ),
      2 ≤ l.length →
      (ownship_go separation_distance relative_direction alt_offset track_id
          start_time i prev l).getD (l.length - 1) trackPoint0 =
        ownship_relative_point separation_distance relative_direction alt_offset
          track_id start_time (i + (l.length - 1))
          (l.getD (l.length - 1) ownshipPoint0)
          (compute_bearing (l.getD (l.length - 2) ownshipPoint0).lat
            (l.getD (l.length - 2) ownshipPoint0).lon
            (l.getD (l.length - 1) ownshipPoint0).lat
            (l.getD (l.length - 1) ownshipPoint0).lon) := by
  intro l
  induction l with
  | nil => intro i prev h2; simp at h2
  | cons pt rest ih =>
    intro i prev h2
    cases rest with
    | nil => simp at h2
    | cons next t =>
      rw [ownship_go]
      cases t with
      | nil =>
        rw [ownship_go]
        simp [ownship_go]
      | cons q u =>
        have hlen : ((pt :: next :: q :: u).length - 1) =
            ((next :: q :: u).length - 1) + 1 := by
          simp only [List.length_cons]; omega
        have hlen2 : ((pt :: next :: q :: u).length - 2) =
            ((next :: q :: u).length - 2) + 1 := by
          simp only [List.length_cons]; omega
        rw [hlen, List.getD_cons_succ,
          ih (i + 1) (some (compute_bearing pt.lat pt.lon next.lat next.lon))
            (by simp only [List.length_cons]; omega),
          hlen2]
        simp only [List.getD_cons_succ]
        rw [show i + 1 + ((next :: q :: u).length - 1) =
          i + (((next :: q :: u).length - 1) + 1) from by omega]

/-- C4: for any reference track, `OwnshipRelativeTrackGenerator.generate`
returns exactly as many points as the reference has samples; point `i` with
`i + 1 < n` is reference sample `i` displaced per the configured separation
distance, relative direction and altitude offset along the great-circle
bearing from sample `i` to sample `i + 1`; and for `n ≥ 2` the final point
reuses the previous segment's bearing (from sample `n - 2` to sample `n - 1`). -/
theorem ownship_generate_spec (own : List OwnshipPoint)
    (separation_distance : ℝ) (relative_direction : String) (alt_offset : ℝ)
    (track_id : ℕ) (start_time : ℝ) :
    (ownship_generate own separation_distance relative_direction alt_offset
      track_id start_time).length = own.length ∧
    (∀ i, i + 1 < own.length →
      (ownship_generate own separation_distance relative_direction alt_offset
          track_id start_time).getD i trackPoint0 =
        ownship_relative_point separation_distance
          (str_lower relative_direction) alt_offset track_id start_time i
          (own.getD i ownshipPoint0)
          (compute_bearing (own.getD i ownshipPoint0).lat
            (own.getD i ownshipPoint0).lon
            (own.getD (i + 1) ownshipPoint0).lat
            (own.getD (i + 1) ownshipPoint0).lon)) ∧
    (2 ≤ own.length →
      (ownship_generate own separation_distance relative_direction alt_offset
          track_id start_time).getD (own.length - 1) trackPoint0 =
        ownship_relative_point separation_distance
          (str_lower relative_direction) alt_offset track_id start_time
          (own.length - 1) (own.getD (own.length - 1) ownshipPoint0)
          (compute_bearing (own.getD (own.length - 2) ownshipPoint0).lat
            (own.getD (own.length - 2) ownshipPoint0).lon
            (own.getD (own.length - 1) ownshipPoint0).lat
            (own.getD (own.length - 1) ownshipPoint0).lon)) := by
  refine ⟨?_, ?_, ?_⟩
  · exact ownship_go_length separation_distance (str_lower relative_direction)
      alt_offset track_id start_time own 0 none
  · intro i hi
    have h := ownship_go_getD_lt separation_distance
      (str_lower relative_direction) alt_offset track_id start_time own 0 none
      i hi
    rwa [Nat.zero_add] at h
  · intro h2
    have h := ownship_go_getD_last separation_distance
      (str_lower relative_direction) alt_offset track_id start_time own 0 none h2
    rwa [Nat.zero_add] at h

/-- C4 (witness): a two-sample reference yields two points; the first is
offset along the bearing to the second sample. -/
theorem ownship_generate_spec_witness :
    (ownship_generate [⟨some 0, 0, 0, 100⟩, ⟨some 1, 1, 1, 100⟩] 5 "ahead" 0
      10001 0).length = 2 ∧
    (0 + 1 < 2 ∧
      (ownship_generate [⟨some 0, 0, 0, 100⟩, ⟨some 1, 1, 1, 100⟩] 5 "ahead" 0
          10001 0).getD 0 trackPoint0 =
        ownship_relative_point 5 (str_lower "ahead") 0 10001 0 0
          (([⟨some 0, 0, 0, 100⟩, ⟨some 1, 1, 1, 100⟩] :
            List OwnshipPoint).getD 0 ownshipPoint0)
          (compute_bearing
            (([⟨some 0, 0, 0, 100⟩, ⟨some 1, 1, 1, 100⟩] :
              List OwnshipPoint).getD 0 ownshipPoint0).lat
            (([⟨some 0, 0, 0, 100⟩, ⟨some 1, 1, 1, 100⟩] :
              List OwnshipPoint).getD 0 ownshipPoint0).lon
            (([⟨some 0, 0, 0, 100⟩, ⟨some 1, 1, 1, 100⟩] :
              List OwnshipPoint).getD (0 + 1) ownshipPoint0).lat
            (([⟨some 0, 0, 0, 100⟩, ⟨some 1, 1, 1, 100⟩] :
              List OwnshipPoint).getD (0 + 1) ownshipPoint0).lon)) :=
  ⟨(ownship_generate_spec [⟨some 0, 0, 0, 100⟩, ⟨some 1, 1, 1, 100⟩] 5 "ahead"
      0 10001 0).1,
   by norm_num,
   (ownship_generate_spec [⟨some 0, 0, 0, 100⟩, ⟨some 1, 1, 1, 100⟩] 5 "ahead"
      0 10001 0).2.1 0 (by norm_num)⟩

/-- `mapM` over `Except` succeeds pointwise. -/
theorem mapM_ok {ε α β : Type} (f : α → Except ε β) (g : α → β) :
    ∀ l : List α, (∀ a ∈ l, f a = .ok (g a)) → l.mapM f = .ok (l.map g) := by
  intro l
  induction l with
  | nil => intro _; rfl
  | cons a rest ih =>
    intro h
    rw [List.mapM_cons, h a (by simp), ih (fun b hb => h b (by simp [hb]))]
    rfl

/-- C9: in independent mode with the `"circular"` maneuver, track `i` is the
circular generator run at center latitude `center_lat + separation_distance·i`,
unchanged longitude, start time `base + time_delay·i` and id `10000 + i`; in
any successful result, track `i`'s point `j` carries id `10000 + i` and
timestamp `j·interval_seconds` past its own start, and the circular law at
the offset center. -/
theorem artificial_generate_independent_spec (num_tracks : ℕ)
    (center_lat center_lon separation_distance time_delay : ℝ)
    (dLat dLon randAlt : ℕ → ℕ → ℝ) (base_start_time : ℝ) (num_points : ℕ)
    (interval_seconds : ℝ) :
    (artificial_generate_independent "circular" num_tracks center_lat
        center_lon separation_distance time_delay dLat dLon randAlt
        base_start_time num_points interval_seconds =
      .ok ((List.range num_tracks).map fun (i : ℕ) =>
        circular_generate (center_lat + separation_distance * (i : ℝ))
          center_lon 0.005 (randAlt i) (10000 + i)
          (base_start_time + (i : ℝ) * time_delay) num_points
          interval_seconds)) ∧
    (∀ tracks, artificial_generate_independent "circular" num_tracks center_lat
        center_lon separation_distance time_delay dLat dLon randAlt
        base_start_time num_points interval_seconds = .ok tracks →
      tracks.length = num_tracks ∧
      ∀ i, i < num_tracks → ∀ j, j < num_points →
        ((tracks.getD i []).getD j trackPoint0).trackId = 10000 + i ∧
        ((tracks.getD i []).getD j trackPoint0).timestamp =
          (base_start_time + (i : ℝ) * time_delay) +
            (j : ℝ) * interval_seconds ∧
        ((tracks.getD i []).getD j trackPoint0).latitude =
          (center_lat + separation_distance * (i : ℝ)) +
            0.005 * Real.cos ((2 * Real.pi / (num_points : ℝ)) * (j : ℝ)) ∧
        ((tracks.getD i []).getD j trackPoint0).longitude =
          center_lon +
            0.005 * Real.sin ((2 * Real.pi / (num_points : ℝ)) * (j : ℝ))) := by
  have hsel : select_generator "circular" = GenKind.circular := by decide
  have hmain : artificial_generate_independent "circular" num_tracks center_lat
      center_lon separation_distance time_delay dLat dLon randAlt
      base_start_time num_points interval_seconds =
      .ok ((List.range num_tracks).map fun (i : ℕ) =>
        circular_generate (center_lat + separation_distance * (i : ℝ))
          center_lon 0.005 (randAlt i) (10000 + i)
          (base_start_time + (i : ℝ) * time_delay) num_points
          interval_seconds) := by
    unfold artificial_generate_independent
    simp only [hsel]
    exact mapM_ok _ _ _ (fun i _ => rfl)
  refine ⟨hmain, ?_⟩
  intro tracks htr
  rw [hmain] at htr
  simp only [Except.ok.injEq] at htr
  subst htr
  refine ⟨by simp, ?_⟩
  intro i hi j hj
  rw [getD_map_range _ hi]
  have hgd : (circular_generate (center_lat + separation_distance * (i : ℝ))
      center_lon 0.005 (randAlt i) (10000 + i)
      (base_start_time + (i : ℝ) * time_delay) num_points
      interval_seconds).getD j trackPoint0 =
      create_track_point (center_lat + separation_distance * (i : ℝ)) center_lon
        (10000 + i) (base_start_time + (i : ℝ) * time_delay)
        (center_lon + 0.005 * Real.sin ((2 * Real.pi / (num_points : ℝ)) * (j : ℝ)))
        ((center_lat + separation_distance * (i : ℝ)) +
          0.005 * Real.cos ((2 * Real.pi / (num_points : ℝ)) * (j : ℝ)))
        (randAlt i j) ((j : ℝ) * interval_seconds) := by
    unfold circular_generate
    rw [getD_map_range _ hj]
  rw [hgd]
  exact ⟨rfl, rfl, rfl, rfl⟩

/-- C9 (witness): 3 circular tracks of 20 points at 10-second intervals:
track 2's point 19 has id 10002 and timestamp `start + 190` where
`start = base + 2·30`. -/
theorem artificial_generate_independent_spec_witness :
    ((((List.range 3).map fun (i : ℕ) =>
        circular_generate ((0 : ℝ) + 0 * (i : ℝ)) 0 0.005 (fun _ => (0 : ℝ))
          (10000 + i) ((0 : ℝ) + (i : ℝ) * 30) 20 10).getD 2 []).getD 19
        trackPoint0).trackId = 10000 + 2 ∧
    ((((List.range 3).map fun (i : ℕ) =>
        circular_generate ((0 : ℝ) + 0 * (i : ℝ)) 0 0.005 (fun _ => (0 : ℝ))
          (10000 + i) ((0 : ℝ) + (i : ℝ) * 30) 20 10).getD 2 []).getD 19
        trackPoint0).timestamp =
      ((0 : ℝ) + (2 : ℝ) * 30) + (19 : ℝ) * 10 :=
  ⟨(((artificial_generate_independent_spec 3 0 0 0 30 (fun _ _ => 0)
      (fun _ _ => 0) (fun _ _ => 0) 0 20 10).2 _
      (artificial_generate_independent_spec 3 0 0 0 30 (fun _ _ => 0)
        (fun _ _ => 0) (fun _ _ => 0) 0 20 10).1).2 2 (by norm_num) 19
      (by norm_num)).1,
   (((artificial_generate_independent_spec 3 0 0 0 30 (fun _ _ => 0)
      (fun _ _ => 0) (fun _ _ => 0) 0 20 10).2 _
      (artificial_generate_independent_spec 3 0 0 0 30 (fun _ _ => 0)
        (fun _ _ => 0) (fun _ _ => 0) 0 20 10).1).2 2 (by norm_num) 19
      (by norm_num)).2.1⟩
